import Mathlib

/-!
Shallow embedding of `cli_passwords/cli_passwords.py`.

The module delegates secret storage to `keyring` (get/set/delete keyed by
(system, username)) and prompting to `getpass`.  We model:

* exceptions as the inductive `Exc` (`tooMany` is
  `TooManyFailedPasswordAttemptsException`, `exc n` is any other exception,
  identified by a tag); the `except exception` class test of
  `retry_password` is modelled by a boolean classifier `fc : Exc → Bool`;
* the external world as a state `St`: the keyring contents as an
  association list plus counters of every collaborator call (keyring reads,
  prompts, keyring writes, keyring deletes) and of invocations of the
  wrapped function;
* collaborator behaviour as a read-only `Oracle`: the `prompt` stream gives
  the user's answer (or an exception) to the n-th `getpass` call, and
  `sget`/`sset`/`sdel` optionally inject an exception into the n-th
  keyring get/set/delete call (`none` = the call behaves normally);
* every operation as a function `St → Except Exc ρ × St`; the state is
  threaded even through exceptional returns so that effect counts of
  failing runs are observable;
* the wrapped function of `retry_password` as
  `func : Nat → String → Except Exc α`: it receives the 1-based ordinal of
  its invocation besides the password, which models a possibly stateful
  operation whose behaviour may differ between attempts (in the source the
  ordinal is implicit in the operation's own state); further positional
  arguments are fixed for a given call and therefore omitted.
-/

inductive Exc where
  | tooMany : Exc
  | exc : Nat → Exc
deriving DecidableEq, Repr

abbrev Store := List ((String × String) × String)

/-- Lookup in the keyring: first entry whose (system, username) key matches. -/
def storeGet : Store → String → String → Option String
  | [], _, _ => none
  | kv :: rest, sys, user =>
    if kv.1 = (sys, user) then some kv.2 else storeGet rest sys user

/-- Remove every entry for (system, username) from the keyring. -/
def storeDel : Store → String → String → Store
  | [], _, _ => []
  | kv :: rest, sys, user =>
    if kv.1 = (sys, user) then storeDel rest sys user
    else kv :: storeDel rest sys user

/-- Write a value for (system, username), replacing any previous entry. -/
def storeSet (l : Store) (sys user v : String) : Store :=
  ((sys, user), v) :: storeDel l sys user

structure St where
  store : Store
  getCount : Nat
  promptCount : Nat
  setCount : Nat
  delCount : Nat
  opCount : Nat
deriving DecidableEq, Repr

/-- Initial state: given keyring contents, all call counters at zero. -/
def St.init (store : Store) : St := ⟨store, 0, 0, 0, 0, 0⟩

structure Oracle where
  prompt : Nat → String → Except Exc String
  sget : Nat → Option Exc
  sset : Nat → Option Exc
  sdel : Nat → Option Exc

/-- The collaborators behave normally: no keyring call raises, and every
prompt returns a string. -/
def faultFree (o : Oracle) : Prop :=
  (∀ n, o.sget n = none) ∧ (∀ n, o.sset n = none) ∧ (∀ n, o.sdel n = none) ∧
    (∀ n msg, ∃ s, o.prompt n msg = Except.ok s)

/-- `display = display or '{0} password for {1}: '.format(system, username)`:
a `None` or empty (falsy) display argument is replaced by the default
template. -/
def resolveDisplay (sys user : String) (disp : Option String) : String :=
  let d := disp.getD ""
  if d.isEmpty then sys ++ " password for " ++ user ++ ": " else d

/-- The `if not password:` block of `get_password`:
`password = getpass(display); keyring.set_password(system, username,
password)`, then the prompted password is returned. -/
def promptAndStore (o : Oracle) (sys user : String) (disp : Option String)
    (st : St) : Except Exc String × St :=
  match o.prompt st.promptCount (resolveDisplay sys user disp) with
  | Except.error e => (Except.error e, { st with promptCount := st.promptCount + 1 })
  | Except.ok p =>
    match o.sset st.setCount with
    | some e =>
      (Except.error e,
        { st with promptCount := st.promptCount + 1, setCount := st.setCount + 1 })
    | none =>
      (Except.ok p,
        { st with promptCount := st.promptCount + 1, setCount := st.setCount + 1,
                  store := storeSet st.store sys user p })

/-- `get_password(system, username, display=None, refresh=False)`:
if `refresh` is false, consult the keyring; if the result is falsy
(absent or empty) — or the keyring was skipped because of `refresh` —
prompt and store. -/
def get_password (o : Oracle) (sys user : String) (disp : Option String)
    (refresh : Bool) (st : St) : Except Exc String × St :=
  if refresh then promptAndStore o sys user disp st
  else
    match o.sget st.getCount with
    | some e => (Except.error e, { st with getCount := st.getCount + 1 })
    | none =>
      match storeGet st.store sys user with
      | some p =>
        if p.isEmpty then
          promptAndStore o sys user disp { st with getCount := st.getCount + 1 }
        else (Except.ok p, { st with getCount := st.getCount + 1 })
      | none => promptAndStore o sys user disp { st with getCount := st.getCount + 1 }

/-- `expire_password(system, username)`: `keyring.delete_password`. -/
def expire_password (o : Oracle) (sys user : String) (st : St) :
    Except Exc Unit × St :=
  match o.sdel st.delCount with
  | some e => (Except.error e, { st with delCount := st.delCount + 1 })
  | none =>
    (Except.ok (),
      { st with delCount := st.delCount + 1, store := storeDel st.store sys user })

/-- One invocation of the wrapper produced by `inject_password`:
fetch a password with `get_password`, then call the wrapped function with
it; the function's outcome (value or exception) is returned as is. -/
def inject_password_run {α : Type} (o : Oracle) (sys user : String)
    (disp : Option String) (refresh : Bool) (func : String → Except Exc α)
    (st : St) : Except Exc α × St :=
  match get_password o sys user disp refresh st with
  | (Except.error e, st1) => (Except.error e, st1)
  | (Except.ok pw, st1) => (func pw, { st1 with opCount := st1.opCount + 1 })

/-- The `while count < retries` loop of the wrapper produced by
`retry_password`, with `fuel = retries - count` remaining iterations.
Each iteration fetches a password (outside the `try`), invokes the wrapped
function inside the `try`, and on an exception matching the designated
class expires the password and loops; any other exception propagates.
When the loop exhausts, `TooManyFailedPasswordAttemptsException` is
raised. -/
def retryLoop {α : Type} (o : Oracle) (sys user : String) (disp : Option String)
    (refresh : Bool) (func : Nat → String → Except Exc α) (fc : Exc → Bool) :
    Nat → St → Except Exc α × St
  | 0, st => (Except.error Exc.tooMany, st)
  | fuel + 1, st =>
    match get_password o sys user disp refresh st with
    | (Except.error e, st1) => (Except.error e, st1)
    | (Except.ok pw, st1) =>
      match func (st1.opCount + 1) pw with
      | Except.ok r => (Except.ok r, { st1 with opCount := st1.opCount + 1 })
      | Except.error e =>
        if fc e then
          match expire_password o sys user { st1 with opCount := st1.opCount + 1 } with
          | (Except.error e2, st3) => (Except.error e2, st3)
          | (Except.ok _, st3) => retryLoop o sys user disp refresh func fc fuel st3
        else (Except.error e, { st1 with opCount := st1.opCount + 1 })

/-- One invocation of the wrapper produced by
`retry_password(system, username, display, refresh, retries, exception)`.
`retries` is a Python `int`, hence `Int` here; the loop runs
`max(retries, 0)` times. -/
def retry_password_run {α : Type} (o : Oracle) (sys user : String)
    (disp : Option String) (refresh : Bool) (retries : Int)
    (func : Nat → String → Except Exc α) (fc : Exc → Bool) (st : St) :
    Except Exc α × St :=
  retryLoop o sys user disp refresh func fc retries.toNat st

/-- A concrete fault-free oracle used by the witnesses: the n-th prompt is
answered with "pw" followed by n, and no keyring call raises. -/
def oracleA : Oracle :=
  ⟨fun n _ => Except.ok ("pw" ++ toString n), fun _ => none, fun _ => none, fun _ => none⟩

/-- A concrete oracle whose prompter always raises `exc 7` (e.g. the input
stream is closed); the keyring itself behaves normally. -/
def oracleBadPrompt : Oracle :=
  ⟨fun _ _ => Except.error (Exc.exc 7), fun _ => none, fun _ => none, fun _ => none⟩

/-! ### Helper lemmas about the store and the collaborator calls -/

lemma oracleA_faultFree : faultFree oracleA :=
  ⟨fun _ => rfl, fun _ => rfl, fun _ => rfl, fun n _ => ⟨"pw" ++ toString n, rfl⟩⟩

lemma storeDel_get (l : Store) (sys user : String) :
    storeGet (storeDel l sys user) sys user = none := by
  induction l with
  | nil => rfl
  | cons kv rest ih =>
    by_cases h : kv.1 = (sys, user) <;> simp [storeDel, h, storeGet, ih]

lemma storeSet_get (l : Store) (sys user v : String) :
    storeGet (storeSet l sys user v) sys user = some v := by
  simp [storeSet, storeGet]

lemma promptAndStore_ok (o : Oracle) (sys user : String) (disp : Option String)
    (st : St) (hset : o.sset st.setCount = none)
    (hpr : ∃ s, o.prompt st.promptCount (resolveDisplay sys user disp) = Except.ok s) :
    ∃ s, promptAndStore o sys user disp st =
      (Except.ok s,
        { st with promptCount := st.promptCount + 1, setCount := st.setCount + 1,
                  store := storeSet st.store sys user s }) := by
  obtain ⟨s, hs⟩ := hpr
  exact ⟨s, by simp [promptAndStore, hs, hset]⟩

lemma get_password_true (o : Oracle) (sys user : String) (disp : Option String)
    (st : St) :
    get_password o sys user disp true st = promptAndStore o sys user disp st := by
  simp [get_password]

lemma get_password_false_fault (o : Oracle) (sys user : String) (disp : Option String)
    (st : St) (e : Exc) (hg : o.sget st.getCount = some e) :
    get_password o sys user disp false st =
      (Except.error e, { st with getCount := st.getCount + 1 }) := by
  simp [get_password, hg]

lemma get_password_false_none (o : Oracle) (sys user : String) (disp : Option String)
    (st : St) (hg : o.sget st.getCount = none)
    (hlook : storeGet st.store sys user = none) :
    get_password o sys user disp false st =
      promptAndStore o sys user disp { st with getCount := st.getCount + 1 } := by
  simp [get_password, hg, hlook]

lemma get_password_false_empty (o : Oracle) (sys user : String) (disp : Option String)
    (st : St) (p : String) (hg : o.sget st.getCount = none)
    (hlook : storeGet st.store sys user = some p) (hemp : p.isEmpty = true) :
    get_password o sys user disp false st =
      promptAndStore o sys user disp { st with getCount := st.getCount + 1 } := by
  simp [get_password, hg, hlook, hemp]

lemma get_password_false_cached (o : Oracle) (sys user : String) (disp : Option String)
    (st : St) (p : String) (hg : o.sget st.getCount = none)
    (hlook : storeGet st.store sys user = some p) (hemp : p.isEmpty = false) :
    get_password o sys user disp false st =
      (Except.ok p, { st with getCount := st.getCount + 1 }) := by
  simp [get_password, hg, hlook, hemp]

lemma get_password_ok (o : Oracle) (sys user : String) (disp : Option String)
    (refresh : Bool) (st : St) (hff : faultFree o) :
    ∃ pw st', get_password o sys user disp refresh st = (Except.ok pw, st') ∧
      st'.opCount = st.opCount ∧ st'.delCount = st.delCount := by
  obtain ⟨hg, hs, hd, hp⟩ := hff
  cases refresh with
  | true =>
    obtain ⟨s, heq⟩ := promptAndStore_ok o sys user disp st (hs _) (hp _ _)
    rw [get_password_true]
    exact ⟨s, _, heq, rfl, rfl⟩
  | false =>
    cases hlook : storeGet st.store sys user with
    | none =>
      rw [get_password_false_none o sys user disp st (hg _) hlook]
      obtain ⟨s, heq⟩ :=
        promptAndStore_ok o sys user disp { st with getCount := st.getCount + 1 } (hs _) (hp _ _)
      exact ⟨s, _, heq, rfl, rfl⟩
    | some p =>
      cases hemp : p.isEmpty with
      | true =>
        rw [get_password_false_empty o sys user disp st p (hg _) hlook hemp]
        obtain ⟨s, heq⟩ :=
          promptAndStore_ok o sys user disp { st with getCount := st.getCount + 1 } (hs _) (hp _ _)
        exact ⟨s, _, heq, rfl, rfl⟩
      | false =>
        rw [get_password_false_cached o sys user disp st p (hg _) hlook hemp]
        exact ⟨p, _, rfl, rfl, rfl⟩

lemma promptAndStore_counts (o : Oracle) (sys user : String) (disp : Option String)
    (st : St) :
    (promptAndStore o sys user disp st).2.opCount = st.opCount ∧
      (promptAndStore o sys user disp st).2.delCount = st.delCount := by
  rw [promptAndStore]
  cases o.prompt st.promptCount (resolveDisplay sys user disp) with
  | error e => exact ⟨rfl, rfl⟩
  | ok p =>
    cases o.sset st.setCount with
    | none => exact ⟨rfl, rfl⟩
    | some e => exact ⟨rfl, rfl⟩

lemma get_password_counts (o : Oracle) (sys user : String) (disp : Option String)
    (refresh : Bool) (st : St) :
    (get_password o sys user disp refresh st).2.opCount = st.opCount ∧
      (get_password o sys user disp refresh st).2.delCount = st.delCount := by
  cases refresh with
  | true =>
    rw [get_password_true]
    exact promptAndStore_counts o sys user disp st
  | false =>
    cases hg : o.sget st.getCount with
    | some e =>
      rw [get_password_false_fault o sys user disp st e hg]
      exact ⟨rfl, rfl⟩
    | none =>
      cases hlook : storeGet st.store sys user with
      | none =>
        rw [get_password_false_none o sys user disp st hg hlook]
        exact promptAndStore_counts o sys user disp _
      | some p =>
        cases hemp : p.isEmpty with
        | true =>
          rw [get_password_false_empty o sys user disp st p hg hlook hemp]
          exact promptAndStore_counts o sys user disp _
        | false =>
          rw [get_password_false_cached o sys user disp st p hg hlook hemp]
          exact ⟨rfl, rfl⟩

lemma expire_password_ok (o : Oracle) (sys user : String) (st : St)
    (hd : o.sdel st.delCount = none) :
    expire_password o sys user st =
      (Except.ok (),
        { st with delCount := st.delCount + 1, store := storeDel st.store sys user }) := by
  simp [expire_password, hd]

lemma get_password_prompts (o : Oracle) (sys user : String) (disp : Option String)
    (refresh : Bool) (st : St) (hff : faultFree o)
    (hnone : storeGet st.store sys user = none) :
    ∃ pw st', get_password o sys user disp refresh st = (Except.ok pw, st') ∧
      st'.promptCount = st.promptCount + 1 := by
  obtain ⟨hg, hs, hd, hp⟩ := hff
  cases refresh with
  | true =>
    obtain ⟨s, heq⟩ := promptAndStore_ok o sys user disp st (hs _) (hp _ _)
    rw [get_password_true]
    exact ⟨s, _, heq, rfl⟩
  | false =>
    rw [get_password_false_none o sys user disp st (hg _) hnone]
    obtain ⟨s, heq⟩ :=
      promptAndStore_ok o sys user disp { st with getCount := st.getCount + 1 } (hs _) (hp _ _)
    exact ⟨s, _, heq, rfl⟩

/-! ### Step lemmas for one iteration of the retry loop -/

lemma retryLoop_step_getfail {α : Type} (o : Oracle) (sys user : String)
    (disp : Option String) (refresh : Bool) (func : Nat → String → Except Exc α)
    (fc : Exc → Bool) (fuel : Nat) (st st1 : St) (e : Exc)
    (hget : get_password o sys user disp refresh st = (Except.error e, st1)) :
    retryLoop o sys user disp refresh func fc (fuel + 1) st = (Except.error e, st1) := by
  simp only [retryLoop, hget]

lemma retryLoop_step_ok {α : Type} (o : Oracle) (sys user : String)
    (disp : Option String) (refresh : Bool) (func : Nat → String → Except Exc α)
    (fc : Exc → Bool) (fuel : Nat) (st st1 : St) (pw : String) (r : α)
    (hget : get_password o sys user disp refresh st = (Except.ok pw, st1))
    (hfo : func (st1.opCount + 1) pw = Except.ok r) :
    retryLoop o sys user disp refresh func fc (fuel + 1) st =
      (Except.ok r, { st1 with opCount := st1.opCount + 1 }) := by
  simp only [retryLoop, hget, hfo]

lemma retryLoop_step_other {α : Type} (o : Oracle) (sys user : String)
    (disp : Option String) (refresh : Bool) (func : Nat → String → Except Exc α)
    (fc : Exc → Bool) (fuel : Nat) (st st1 : St) (pw : String) (e : Exc)
    (hget : get_password o sys user disp refresh st = (Except.ok pw, st1))
    (hfe : func (st1.opCount + 1) pw = Except.error e) (hfc : fc e = false) :
    retryLoop o sys user disp refresh func fc (fuel + 1) st =
      (Except.error e, { st1 with opCount := st1.opCount + 1 }) := by
  simp only [retryLoop, hget, hfe, hfc, Bool.false_eq_true, if_false]

lemma retryLoop_step_designated {α : Type} (o : Oracle) (sys user : String)
    (disp : Option String) (refresh : Bool) (func : Nat → String → Except Exc α)
    (fc : Exc → Bool) (fuel : Nat) (st st1 : St) (pw : String) (e : Exc)
    (hget : get_password o sys user disp refresh st = (Except.ok pw, st1))
    (hfe : func (st1.opCount + 1) pw = Except.error e) (hfc : fc e = true)
    (hd : o.sdel st1.delCount = none) :
    retryLoop o sys user disp refresh func fc (fuel + 1) st =
      retryLoop o sys user disp refresh func fc fuel
        { st1 with opCount := st1.opCount + 1, delCount := st1.delCount + 1,
                   store := storeDel st1.store sys user } := by
  simp only [retryLoop, hget, hfe, hfc, if_true]
  rw [expire_password_ok o sys user { st1 with opCount := st1.opCount + 1 } hd]

lemma retryLoop_allFail {α : Type} (o : Oracle) (sys user : String)
    (disp : Option String) (refresh : Bool) (func : Nat → String → Except Exc α)
    (fc : Exc → Bool) (hff : faultFree o)
    (hfail : ∀ i pw, ∃ e, func i pw = Except.error e ∧ fc e = true) :
    ∀ fuel st, ∃ stf,
      retryLoop o sys user disp refresh func fc fuel st = (Except.error Exc.tooMany, stf) ∧
        stf.opCount = st.opCount + fuel ∧ stf.delCount = st.delCount + fuel := by
  intro fuel
  induction fuel with
  | zero => exact fun st => ⟨st, rfl, rfl, rfl⟩
  | succ n ih =>
    intro st
    obtain ⟨pw, st1, hget, hop, hdel⟩ := get_password_ok o sys user disp refresh st hff
    obtain ⟨e, hfe, hfc⟩ := hfail (st1.opCount + 1) pw
    obtain ⟨stf, hloop, hof, hdf⟩ :=
      ih { st1 with opCount := st1.opCount + 1, delCount := st1.delCount + 1,
                    store := storeDel st1.store sys user }
    refine ⟨stf, ?_, ?_, ?_⟩
    · rw [retryLoop_step_designated o sys user disp refresh func fc n st st1 pw e hget hfe hfc
        (hff.2.2.1 _)]
      exact hloop
    · simp only at hof
      omega
    · simp only at hdf
      omega

lemma retryLoop_succeedsAt {α : Type} (o : Oracle) (sys user : String)
    (disp : Option String) (refresh : Bool) (func : Nat → String → Except Exc α)
    (fc : Exc → Bool) (hff : faultFree o) (v : α) :
    ∀ k fuel st, 1 ≤ k → k ≤ fuel →
      (∀ i pw, st.opCount < i → i < st.opCount + k →
        ∃ e, func i pw = Except.error e ∧ fc e = true) →
      (∀ pw, func (st.opCount + k) pw = Except.ok v) →
      ∃ stf, retryLoop o sys user disp refresh func fc fuel st = (Except.ok v, stf) ∧
        stf.opCount = st.opCount + k ∧ stf.delCount = st.delCount + (k - 1) := by
  intro k
  induction k with
  | zero => intro fuel st h1; exact absurd h1 (by omega)
  | succ n ih =>
    intro fuel st h1 hk hfail hok
    obtain ⟨m, rfl⟩ : ∃ m, fuel = m + 1 := ⟨fuel - 1, by omega⟩
    obtain ⟨pw, st1, hget, hop, hdel⟩ := get_password_ok o sys user disp refresh st hff
    cases n with
    | zero =>
      have hfo : func (st1.opCount + 1) pw = Except.ok v := by rw [hop]; exact hok pw
      refine ⟨{ st1 with opCount := st1.opCount + 1 },
        retryLoop_step_ok o sys user disp refresh func fc m st st1 pw v hget hfo, ?_, ?_⟩
      · show st1.opCount + 1 = st.opCount + 1
        omega
      · show st1.delCount = st.delCount + (1 - 1)
        omega
    | succ j =>
      obtain ⟨e, hfe, hfc⟩ := hfail (st.opCount + 1) pw (by omega) (by omega)
      have hfe1 : func (st1.opCount + 1) pw = Except.error e := by rw [hop]; exact hfe
      have hstep := retryLoop_step_designated o sys user disp refresh func fc m st st1 pw e
        hget hfe1 hfc (hff.2.2.1 _)
      obtain ⟨stf, hloop, hof, hdf⟩ :=
        ih m { st1 with opCount := st1.opCount + 1, delCount := st1.delCount + 1,
                        store := storeDel st1.store sys user }
          (by omega) (by omega)
          (by
            show ∀ i pw2, st1.opCount + 1 < i → i < st1.opCount + 1 + (j + 1) →
              ∃ e2, func i pw2 = Except.error e2 ∧ fc e2 = true
            intro i pw2 hi1 hi2
            exact hfail i pw2 (by omega) (by omega))
          (by
            show ∀ pw2, func (st1.opCount + 1 + (j + 1)) pw2 = Except.ok v
            intro pw2
            have harg : st1.opCount + 1 + (j + 1) = st.opCount + (j + 1 + 1) := by omega
            rw [harg]
            exact hok pw2)
      have hof' : stf.opCount = st1.opCount + 1 + (j + 1) := hof
      have hdf' : stf.delCount = st1.delCount + 1 + (j + 1 - 1) := hdf
      refine ⟨stf, ?_, by omega, by omega⟩
      rw [hstep]
      exact hloop

/-! ### The claims -/

/-- Claim C1: for `maxAttempts = N ≥ 1`, if the guarded operation raises the
designated failure on every invocation, one call of the `retry_password`
wrapper invokes the operation exactly N times, expires the credential exactly
N times, and raises `TooManyFailedPasswordAttemptsException`; no (N+1)-th
invocation occurs (the final operation count is exactly N). -/
theorem C1_bounded_attempts {α : Type} (N : Nat) (hN : 1 ≤ N) (o : Oracle)
    (hff : faultFree o) (sys user : String) (disp : Option String) (refresh : Bool)
    (func : Nat → String → Except Exc α) (fc : Exc → Bool)
    (hfail : ∀ i pw, ∃ e, func i pw = Except.error e ∧ fc e = true) (store0 : Store) :
    (retry_password_run o sys user disp refresh (N : Int) func fc (St.init store0)).1 =
        Except.error Exc.tooMany ∧
      (retry_password_run o sys user disp refresh (N : Int) func fc
        (St.init store0)).2.opCount = N ∧
      (retry_password_run o sys user disp refresh (N : Int) func fc
        (St.init store0)).2.delCount = N := by
  obtain ⟨stf, hrun, hop, hdel⟩ :=
    retryLoop_allFail o sys user disp refresh func fc hff hfail N (St.init store0)
  have hnat : ((N : Int)).toNat = N := by omega
  have hmain : retry_password_run o sys user disp refresh (N : Int) func fc (St.init store0) =
      (Except.error Exc.tooMany, stf) := by
    rw [retry_password_run, hnat]
    exact hrun
  rw [hmain]
  have hop' : stf.opCount = 0 + N := hop
  have hdel' : stf.delCount = 0 + N := hdel
  refine ⟨rfl, ?_, ?_⟩
  · show stf.opCount = N
    omega
  · show stf.delCount = N
    omega

/-- Witness for C1 at N = 3: an operation that always raises a designated
failure is invoked three times, three expiries happen, and the run ends in
`tooMany`. -/
theorem C1_bounded_attempts_witness :
    (retry_password_run oracleA "sys" "alice" none false ((3 : Nat) : Int)
        (fun _ _ => (Except.error (Exc.exc 1) : Except Exc Nat)) (fun _ => true)
        (St.init ([] : Store))).1 = Except.error Exc.tooMany ∧
      (retry_password_run oracleA "sys" "alice" none false ((3 : Nat) : Int)
        (fun _ _ => (Except.error (Exc.exc 1) : Except Exc Nat)) (fun _ => true)
        (St.init ([] : Store))).2.opCount = 3 ∧
      (retry_password_run oracleA "sys" "alice" none false ((3 : Nat) : Int)
        (fun _ _ => (Except.error (Exc.exc 1) : Except Exc Nat)) (fun _ => true)
        (St.init ([] : Store))).2.delCount = 3 :=
  C1_bounded_attempts 3 (by decide) oracleA oracleA_faultFree "sys" "alice" none false
    (fun _ _ => (Except.error (Exc.exc 1) : Except Exc Nat)) (fun _ => true)
    (fun _ _ => ⟨Exc.exc 1, rfl, rfl⟩) []

/-- Claim C2: if on the first attempt the guarded operation raises an error
that the designated class does not match, the wrapper invokes the operation
exactly once, performs zero expirations, and propagates that exact error. -/
theorem C2_other_error_short_circuits {α : Type} (o : Oracle) (hff : faultFree o)
    (sys user : String) (disp : Option String) (refresh : Bool) (retries : Int)
    (hret : 1 ≤ retries) (func : Nat → String → Except Exc α) (fc : Exc → Bool)
    (e : Exc) (hfc : fc e = false) (hfail : ∀ pw, func 1 pw = Except.error e)
    (store0 : Store) :
    (retry_password_run o sys user disp refresh retries func fc (St.init store0)).1 =
        Except.error e ∧
      (retry_password_run o sys user disp refresh retries func fc
        (St.init store0)).2.opCount = 1 ∧
      (retry_password_run o sys user disp refresh retries func fc
        (St.init store0)).2.delCount = 0 := by
  obtain ⟨m, hm⟩ : ∃ m, retries.toNat = m + 1 := ⟨retries.toNat - 1, by omega⟩
  obtain ⟨pw, st1, hget, hop, hdel⟩ :=
    get_password_ok o sys user disp refresh (St.init store0) hff
  have hop' : st1.opCount = 0 := hop
  have hdel' : st1.delCount = 0 := hdel
  have hfe : func (st1.opCount + 1) pw = Except.error e := by
    rw [hop']
    exact hfail pw
  have hstep := retryLoop_step_other o sys user disp refresh func fc m (St.init store0)
    st1 pw e hget hfe hfc
  have hmain : retry_password_run o sys user disp refresh retries func fc (St.init store0) =
      (Except.error e, { st1 with opCount := st1.opCount + 1 }) := by
    rw [retry_password_run, hm]
    exact hstep
  rw [hmain]
  refine ⟨rfl, ?_, ?_⟩
  · show st1.opCount + 1 = 1
    omega
  · show st1.delCount = 0
    omega

/-- Witness for C2: an operation raising a non-designated error on attempt 1
is invoked once, causes no expiry, and its error is propagated unchanged. -/
theorem C2_other_error_short_circuits_witness :
    (retry_password_run oracleA "sys" "alice" none false (5 : Int)
        (fun _ _ => (Except.error (Exc.exc 9) : Except Exc Nat)) (fun e => e == Exc.exc 1)
        (St.init ([] : Store))).1 = Except.error (Exc.exc 9) ∧
      (retry_password_run oracleA "sys" "alice" none false (5 : Int)
        (fun _ _ => (Except.error (Exc.exc 9) : Except Exc Nat)) (fun e => e == Exc.exc 1)
        (St.init ([] : Store))).2.opCount = 1 ∧
      (retry_password_run oracleA "sys" "alice" none false (5 : Int)
        (fun _ _ => (Except.error (Exc.exc 9) : Except Exc Nat)) (fun e => e == Exc.exc 1)
        (St.init ([] : Store))).2.delCount = 0 :=
  C2_other_error_short_circuits oracleA oracleA_faultFree "sys" "alice" none false 5
    (by decide) (fun _ _ => (Except.error (Exc.exc 9) : Except Exc Nat)) (fun e => e == Exc.exc 1)
    (Exc.exc 9) (by decide) (fun _ => rfl) []

/-- Claim C3: for `maxAttempts = N ≥ 1` and `1 ≤ k ≤ N`, if the guarded
operation raises the designated failure on the first k−1 attempts and
succeeds on attempt k, the wrapper invokes the operation exactly k times,
expires the credential exactly k−1 times, and returns the operation's result
unchanged. -/
theorem C3_early_success {α : Type} (N k : Nat) (h1 : 1 ≤ k) (hkN : k ≤ N)
    (o : Oracle) (hff : faultFree o) (sys user : String) (disp : Option String)
    (refresh : Bool) (func : Nat → String → Except Exc α) (fc : Exc → Bool) (v : α)
    (hfail : ∀ i pw, 1 ≤ i → i < k → ∃ e, func i pw = Except.error e ∧ fc e = true)
    (hok : ∀ pw, func k pw = Except.ok v) (store0 : Store) :
    (retry_password_run o sys user disp refresh (N : Int) func fc (St.init store0)).1 =
        Except.ok v ∧
      (retry_password_run o sys user disp refresh (N : Int) func fc
        (St.init store0)).2.opCount = k ∧
      (retry_password_run o sys user disp refresh (N : Int) func fc
        (St.init store0)).2.delCount = k - 1 := by
  obtain ⟨stf, hrun, hop, hdel⟩ :=
    retryLoop_succeedsAt o sys user disp refresh func fc hff v k N (St.init store0) h1 hkN
      (by
        show ∀ i pw, 0 < i → i < 0 + k → ∃ e, func i pw = Except.error e ∧ fc e = true
        intro i pw hi1 hi2
        exact hfail i pw (by omega) (by omega))
      (by
        show ∀ pw, func (0 + k) pw = Except.ok v
        intro pw
        rw [Nat.zero_add]
        exact hok pw)
  have hnat : ((N : Int)).toNat = N := by omega
  have hmain : retry_password_run o sys user disp refresh (N : Int) func fc (St.init store0) =
      (Except.ok v, stf) := by
    rw [retry_password_run, hnat]
    exact hrun
  rw [hmain]
  have hop' : stf.opCount = 0 + k := hop
  have hdel' : stf.delCount = 0 + (k - 1) := hdel
  refine ⟨rfl, ?_, ?_⟩
  · show stf.opCount = k
    omega
  · show stf.delCount = k - 1
    omega

/-- Witness for C3 at N = 5, k = 2: one designated failure followed by a
success returning 42 gives two invocations, one expiry, and result 42. -/
theorem C3_early_success_witness :
    (retry_password_run oracleA "sys" "alice" none false ((5 : Nat) : Int)
        (fun i _ => if i = 2 then Except.ok 42 else Except.error (Exc.exc 1))
        (fun _ => true) (St.init ([] : Store))).1 = Except.ok 42 ∧
      (retry_password_run oracleA "sys" "alice" none false ((5 : Nat) : Int)
        (fun i _ => if i = 2 then Except.ok 42 else Except.error (Exc.exc 1))
        (fun _ => true) (St.init ([] : Store))).2.opCount = 2 ∧
      (retry_password_run oracleA "sys" "alice" none false ((5 : Nat) : Int)
        (fun i _ => if i = 2 then Except.ok 42 else Except.error (Exc.exc 1))
        (fun _ => true) (St.init ([] : Store))).2.delCount = 2 - 1 :=
  C3_early_success 5 2 (by decide) (by decide) oracleA oracleA_faultFree "sys" "alice"
    none false (fun i _ => if i = 2 then Except.ok 42 else Except.error (Exc.exc 1))
    (fun _ => true) 42
    (fun i _ h1 h2 => ⟨Exc.exc 1, by
      have hi : i = 1 := by omega
      subst hi
      rfl, rfl⟩)
    (fun _ => rfl) []

/-- Claim C4: with a (non-empty) credential stored for (system, username) and
`refresh = false`, `get_password` returns the stored value unchanged, never
invokes the prompter, and performs no store write. -/
theorem C4_cache_reuse (o : Oracle) (sys user : String) (disp : Option String)
    (st : St) (p : String) (hg : o.sget st.getCount = none)
    (hstored : storeGet st.store sys user = some p) (hne : p.isEmpty = false) :
    (get_password o sys user disp false st).1 = Except.ok p ∧
      (get_password o sys user disp false st).2.promptCount = st.promptCount ∧
      (get_password o sys user disp false st).2.setCount = st.setCount ∧
      (get_password o sys user disp false st).2.store = st.store := by
  rw [get_password_false_cached o sys user disp st p hg hstored hne]
  exact ⟨rfl, rfl, rfl, rfl⟩

/-- Witness for C4: with "s3cret" stored for ("sys", "alice"), the cached
value is returned, no prompt and no write happen. -/
theorem C4_cache_reuse_witness :
    (get_password oracleA "sys" "alice" none false
        (St.init [(("sys", "alice"), "s3cret")])).1 = Except.ok "s3cret" ∧
      (get_password oracleA "sys" "alice" none false
        (St.init [(("sys", "alice"), "s3cret")])).2.promptCount =
        (St.init [(("sys", "alice"), "s3cret")]).promptCount ∧
      (get_password oracleA "sys" "alice" none false
        (St.init [(("sys", "alice"), "s3cret")])).2.setCount =
        (St.init [(("sys", "alice"), "s3cret")]).setCount ∧
      (get_password oracleA "sys" "alice" none false
        (St.init [(("sys", "alice"), "s3cret")])).2.store =
        (St.init [(("sys", "alice"), "s3cret")]).store :=
  C4_cache_reuse oracleA "sys" "alice" none (St.init [(("sys", "alice"), "s3cret")])
    "s3cret" rfl (by decide) rfl

/-- Claim C5: when `refresh` is true, or no value is stored for the identity,
or the stored value is empty (falsy), `get_password` prompts exactly once,
writes the entered string to the store under (system, username), and returns
the entered string. -/
theorem C5_prompt_and_persist (o : Oracle) (sys user : String) (disp : Option String)
    (refresh : Bool) (st : St) (entered : String)
    (hp : o.prompt st.promptCount (resolveDisplay sys user disp) = Except.ok entered)
    (hset : o.sset st.setCount = none) (hg : o.sget st.getCount = none)
    (hcase : refresh = true ∨ storeGet st.store sys user = none ∨
      ∃ s, storeGet st.store sys user = some s ∧ s.isEmpty = true) :
    (get_password o sys user disp refresh st).1 = Except.ok entered ∧
      (get_password o sys user disp refresh st).2.promptCount = st.promptCount + 1 ∧
      (get_password o sys user disp refresh st).2.setCount = st.setCount + 1 ∧
      storeGet (get_password o sys user disp refresh st).2.store sys user =
        some entered := by
  have key : ∀ st0 : St,
      o.prompt st0.promptCount (resolveDisplay sys user disp) = Except.ok entered →
      o.sset st0.setCount = none →
      promptAndStore o sys user disp st0 =
        (Except.ok entered,
          { st0 with promptCount := st0.promptCount + 1, setCount := st0.setCount + 1,
                     store := storeSet st0.store sys user entered }) := by
    intro st0 h1 h2
    simp [promptAndStore, h1, h2]
  rcases hcase with hr | hnone | ⟨s, hsome, semp⟩
  · subst hr
    rw [get_password_true, key st hp hset]
    exact ⟨rfl, rfl, rfl, storeSet_get st.store sys user entered⟩
  · cases refresh with
    | true =>
      rw [get_password_true, key st hp hset]
      exact ⟨rfl, rfl, rfl, storeSet_get st.store sys user entered⟩
    | false =>
      rw [get_password_false_none o sys user disp st hg hnone,
        key { st with getCount := st.getCount + 1 } hp hset]
      exact ⟨rfl, rfl, rfl, storeSet_get st.store sys user entered⟩
  · cases refresh with
    | true =>
      rw [get_password_true, key st hp hset]
      exact ⟨rfl, rfl, rfl, storeSet_get st.store sys user entered⟩
    | false =>
      rw [get_password_false_empty o sys user disp st s hg hsome semp,
        key { st with getCount := st.getCount + 1 } hp hset]
      exact ⟨rfl, rfl, rfl, storeSet_get st.store sys user entered⟩

/-- Witness for C5: forced refresh with a stored credential prompts once,
overwrites the store, and returns the entered string "pw0". -/
theorem C5_prompt_and_persist_witness :
    (get_password oracleA "sys" "alice" none true
        (St.init [(("sys", "alice"), "old")])).1 = Except.ok "pw0" ∧
      (get_password oracleA "sys" "alice" none true
        (St.init [(("sys", "alice"), "old")])).2.promptCount =
        (St.init [(("sys", "alice"), "old")]).promptCount + 1 ∧
      (get_password oracleA "sys" "alice" none true
        (St.init [(("sys", "alice"), "old")])).2.setCount =
        (St.init [(("sys", "alice"), "old")]).setCount + 1 ∧
      storeGet (get_password oracleA "sys" "alice" none true
        (St.init [(("sys", "alice"), "old")])).2.store "sys" "alice" =
        some "pw0" :=
  C5_prompt_and_persist oracleA "sys" "alice" none true
    (St.init [(("sys", "alice"), "old")]) "pw0" rfl rfl rfl (Or.inl rfl)

lemma promptAndStore_frame (o : Oracle) (sys user : String) (disp : Option String)
    (st : St) :
    (promptAndStore o sys user disp st).2.promptCount ≤ st.promptCount + 1 ∧
      (promptAndStore o sys user disp st).2.setCount ≤ st.setCount + 1 := by
  rw [promptAndStore]
  cases o.prompt st.promptCount (resolveDisplay sys user disp) with
  | error e => exact ⟨Nat.le_refl _, Nat.le_succ _⟩
  | ok p =>
    cases o.sset st.setCount with
    | none => exact ⟨Nat.le_refl _, Nat.le_refl _⟩
    | some e => exact ⟨Nat.le_refl _, Nat.le_refl _⟩

/-- Claim C8: every single `get_password` call performs at most one prompt
and at most one store write, and performs no write at all (store and write
counter unchanged) when a cached value is reused. -/
theorem C8_frame_effects (o : Oracle) (sys user : String) (disp : Option String)
    (refresh : Bool) (st : St) :
    ((get_password o sys user disp refresh st).2.promptCount ≤ st.promptCount + 1 ∧
      (get_password o sys user disp refresh st).2.setCount ≤ st.setCount + 1) ∧
      (∀ p, refresh = false → o.sget st.getCount = none →
        storeGet st.store sys user = some p → p.isEmpty = false →
        (get_password o sys user disp refresh st).2.setCount = st.setCount ∧
          (get_password o sys user disp refresh st).2.store = st.store) := by
  constructor
  · cases refresh with
    | true =>
      rw [get_password_true]
      exact promptAndStore_frame o sys user disp st
    | false =>
      cases hg : o.sget st.getCount with
      | some e =>
        rw [get_password_false_fault o sys user disp st e hg]
        exact ⟨Nat.le_succ _, Nat.le_succ _⟩
      | none =>
        cases hlook : storeGet st.store sys user with
        | none =>
          rw [get_password_false_none o sys user disp st hg hlook]
          exact promptAndStore_frame o sys user disp _
        | some p =>
          cases hemp : p.isEmpty with
          | true =>
            rw [get_password_false_empty o sys user disp st p hg hlook hemp]
            exact promptAndStore_frame o sys user disp _
          | false =>
            rw [get_password_false_cached o sys user disp st p hg hlook hemp]
            exact ⟨Nat.le_succ _, Nat.le_succ _⟩
  · intro p hr hg hlook hemp
    subst hr
    rw [get_password_false_cached o sys user disp st p hg hlook hemp]
    exact ⟨rfl, rfl⟩

/-- Witness for C8: on a state with a cached credential, the bounds hold and
the cached-reuse call leaves the store and the write counter untouched. -/
theorem C8_frame_effects_witness :
    ((get_password oracleA "sys" "alice" none false
        (St.init [(("sys", "alice"), "s3cret")])).2.promptCount ≤
        (St.init [(("sys", "alice"), "s3cret")]).promptCount + 1 ∧
      (get_password oracleA "sys" "alice" none false
        (St.init [(("sys", "alice"), "s3cret")])).2.setCount ≤
        (St.init [(("sys", "alice"), "s3cret")]).setCount + 1) ∧
      ((get_password oracleA "sys" "alice" none false
        (St.init [(("sys", "alice"), "s3cret")])).2.setCount =
        (St.init [(("sys", "alice"), "s3cret")]).setCount ∧
      (get_password oracleA "sys" "alice" none false
        (St.init [(("sys", "alice"), "s3cret")])).2.store =
        (St.init [(("sys", "alice"), "s3cret")]).store) :=
  ⟨(C8_frame_effects oracleA "sys" "alice" none false
      (St.init [(("sys", "alice"), "s3cret")])).1,
    (C8_frame_effects oracleA "sys" "alice" none false
      (St.init [(("sys", "alice"), "s3cret")])).2 "s3cret" rfl rfl (by decide) rfl⟩

/-- Claim C9: one invocation of the `inject_password` wrapper fetches a
password exactly once via `get_password`, invokes the wrapped operation once
with that password, and returns its outcome (value or exception) unmodified;
no retry and no credential expiry occur (operation counter rises by exactly
one, delete counter unchanged). -/
theorem C9_inject_once {α : Type} (o : Oracle) (hff : faultFree o)
    (sys user : String) (disp : Option String) (refresh : Bool)
    (func : String → Except Exc α) (st : St) :
    ∃ pw st1, get_password o sys user disp refresh st = (Except.ok pw, st1) ∧
      inject_password_run o sys user disp refresh func st =
        (func pw, { st1 with opCount := st1.opCount + 1 }) ∧
      st1.opCount = st.opCount ∧ st1.delCount = st.delCount := by
  obtain ⟨pw, st1, hget, hop, hdel⟩ := get_password_ok o sys user disp refresh st hff
  refine ⟨pw, st1, hget, ?_, hop, hdel⟩
  simp only [inject_password_run, hget]

/-- Witness for C9: injecting into an operation that returns its password
makes exactly one fetch and one invocation. -/
theorem C9_inject_once_witness :
    ∃ pw st1, get_password oracleA "sys" "alice" none false
        (St.init [(("sys", "alice"), "s3cret")]) = (Except.ok pw, st1) ∧
      inject_password_run oracleA "sys" "alice" none false
          (fun pw2 => (Except.ok pw2 : Except Exc String))
          (St.init [(("sys", "alice"), "s3cret")]) =
        ((fun pw2 => (Except.ok pw2 : Except Exc String)) pw,
          { st1 with opCount := st1.opCount + 1 }) ∧
      st1.opCount = (St.init [(("sys", "alice"), "s3cret")]).opCount ∧
      st1.delCount = (St.init [(("sys", "alice"), "s3cret")]).delCount :=
  C9_inject_once oracleA oracleA_faultFree "sys" "alice" none false
    (fun pw2 => (Except.ok pw2 : Except Exc String))
    (St.init [(("sys", "alice"), "s3cret")])

/-- Claim C10: for every `retries ≤ 0` the wrapper raises
`TooManyFailedPasswordAttemptsException` immediately: the guarded operation
is never invoked, no prompt happens, and no store read, write or delete
happens (the final state is exactly the initial one); the code performs no
validation of the `maxAttempts ≥ 1` invariant. -/
theorem C10_nonpositive_retries {α : Type} (retries : Int) (hret : retries ≤ 0)
    (o : Oracle) (sys user : String) (disp : Option String) (refresh : Bool)
    (func : Nat → String → Except Exc α) (fc : Exc → Bool) (st : St) :
    retry_password_run o sys user disp refresh retries func fc st =
      (Except.error Exc.tooMany, st) := by
  have h0 : retries.toNat = 0 := by omega
  rw [retry_password_run, h0]
  rfl

/-- Witness for C10 at `retries = -2`: the wrapper fails immediately and the
state (store and all call counters) is untouched. -/
theorem C10_nonpositive_retries_witness :
    retry_password_run oracleA "sys" "alice" none false (-2 : Int)
        (fun _ _ => (Except.ok 0 : Except Exc Nat)) (fun _ => true)
        (St.init [(("sys", "alice"), "s3cret")]) =
      (Except.error Exc.tooMany, St.init [(("sys", "alice"), "s3cret")]) :=
  C10_nonpositive_retries (-2) (by decide) oracleA "sys" "alice" none false
    (fun _ _ => (Except.ok 0 : Except Exc Nat)) (fun _ => true)
    (St.init [(("sys", "alice"), "s3cret")])

/-- Claim C7: the configured `refresh` flag is passed to the cache lookup on
every loop iteration (the loop recursion below holds for an arbitrary
`refresh`), and after a designated failure expires the cache the next
iteration's lookup finds no stored value and therefore prompts regardless of
the value of `refresh`. -/
theorem C7_refresh_every_iteration {α : Type} (o : Oracle) (sys user : String)
    (disp : Option String) (refresh : Bool) (func : Nat → String → Except Exc α)
    (fc : Exc → Bool) (fuel : Nat) (st : St) (hff : faultFree o)
    (hfail : ∀ pw, ∃ e, func (st.opCount + 1) pw = Except.error e ∧ fc e = true) :
    ∃ st1, retryLoop o sys user disp refresh func fc (fuel + 2) st =
        retryLoop o sys user disp refresh func fc (fuel + 1) st1 ∧
      storeGet st1.store sys user = none ∧
      ∃ pw2 st2, get_password o sys user disp refresh st1 = (Except.ok pw2, st2) ∧
        st2.promptCount = st1.promptCount + 1 := by
  obtain ⟨pw, stg, hget, hop, hdel⟩ := get_password_ok o sys user disp refresh st hff
  obtain ⟨e, hfe, hfc⟩ := hfail pw
  have hfe1 : func (stg.opCount + 1) pw = Except.error e := by
    rw [hop]
    exact hfe
  have hstep := retryLoop_step_designated o sys user disp refresh func fc (fuel + 1)
    st stg pw e hget hfe1 hfc (hff.2.2.1 _)
  refine ⟨_, hstep, ?_, ?_⟩
  · show storeGet (storeDel stg.store sys user) sys user = none
    exact storeDel_get stg.store sys user
  · exact get_password_prompts o sys user disp refresh _ hff (storeDel_get stg.store sys user)

/-- Witness for C7 with `refresh = false` and a cached credential: after the
first designated failure the loop continues on a state without the entry,
and the next lookup prompts. -/
theorem C7_refresh_every_iteration_witness :
    ∃ st1, retryLoop oracleA "sys" "alice" none false
        (fun _ _ => (Except.error (Exc.exc 1) : Except Exc Nat)) (fun _ => true)
        (0 + 2) (St.init [(("sys", "alice"), "old")]) =
      retryLoop oracleA "sys" "alice" none false
        (fun _ _ => (Except.error (Exc.exc 1) : Except Exc Nat)) (fun _ => true)
        (0 + 1) st1 ∧
      storeGet st1.store "sys" "alice" = none ∧
      ∃ pw2 st2, get_password oracleA "sys" "alice" none false st1 =
        (Except.ok pw2, st2) ∧ st2.promptCount = st1.promptCount + 1 :=
  C7_refresh_every_iteration oracleA "sys" "alice" none false
    (fun _ _ => (Except.error (Exc.exc 1) : Except Exc Nat)) (fun _ => true) 0
    (St.init [(("sys", "alice"), "old")]) oracleA_faultFree
    (fun _ => ⟨Exc.exc 1, rfl, rfl⟩)

/-- Counterexample to claim C6 as stated: with the catch-all designated class
(`fc` is constantly true, the default `exception=Exception`), a prompter
error (`exc 7`) raised while fetching the password during the retry sequence
matches the designated class, yet it is NOT handled as a designated failure:
the run propagates `exc 7` with zero expirations (delete counter 0) and zero
invocations of the guarded operation, because the password fetch happens
outside the `try` block. -/
theorem C6_counterexample :
    (fun _ => true : Exc → Bool) (Exc.exc 7) = true ∧
      retry_password_run oracleBadPrompt "sys" "alice" none false (5 : Int)
          (fun _ _ => (Except.error (Exc.exc 1) : Except Exc Nat)) (fun _ => true)
          (St.init []) =
        (Except.error (Exc.exc 7), ⟨[], 1, 1, 0, 0, 0⟩) :=
  ⟨rfl, rfl⟩

/-- Claim C6 amended: an error raised by the secret store or the prompter
while the retry loop fetches the password propagates to the caller unchanged
and is never handled as a designated failure — no expiry and no further
attempt occur — regardless of whether it matches the designated class
(`fc` below is arbitrary), because `get_password` is invoked outside the
`try` block. -/
theorem C6_collaborator_error_propagates {α : Type} (o : Oracle)
    (sys user : String) (disp : Option String) (refresh : Bool)
    (func : Nat → String → Except Exc α) (fc : Exc → Bool) (fuel : Nat)
    (st st1 : St) (e : Exc)
    (hget : get_password o sys user disp refresh st = (Except.error e, st1)) :
    retryLoop o sys user disp refresh func fc (fuel + 1) st = (Except.error e, st1) ∧
      st1.delCount = st.delCount ∧ st1.opCount = st.opCount := by
  refine ⟨retryLoop_step_getfail o sys user disp refresh func fc fuel st st1 e hget, ?_, ?_⟩
  · have h := (get_password_counts o sys user disp refresh st).2
    rw [hget] at h
    exact h
  · have h := (get_password_counts o sys user disp refresh st).1
    rw [hget] at h
    exact h

/-- Witness for the amended C6: the concrete failing-prompter run of the
counterexample, through the general propagation theorem. -/
theorem C6_collaborator_error_propagates_witness :
    retryLoop oracleBadPrompt "sys" "alice" none false
        (fun _ _ => (Except.error (Exc.exc 1) : Except Exc Nat)) (fun _ => true)
        5 (St.init []) = (Except.error (Exc.exc 7), ⟨[], 1, 1, 0, 0, 0⟩) ∧
      (⟨[], 1, 1, 0, 0, 0⟩ : St).delCount = (St.init []).delCount ∧
      (⟨[], 1, 1, 0, 0, 0⟩ : St).opCount = (St.init []).opCount :=
  C6_collaborator_error_propagates oracleBadPrompt "sys" "alice" none false
    (fun _ _ => (Except.error (Exc.exc 1) : Except Exc Nat)) (fun _ => true) 4
    (St.init []) ⟨[], 1, 1, 0, 0, 0⟩ (Exc.exc 7) rfl
